import Mathlib

/-!
Verification of the cantonese-voice-skill repository.

Shallow embedding of:
- `voice_output_manager.py` (`VoiceOutputManager`) — persisted output toggle
  plus the bracket command parser;
- `voice_tts.py` (`synthesize_speech_fixed`, `_get_cosyvoice_instance`) —
  bounded retryable synthesis invocation and the engine-handle cache;
- `voice_integration.py` (`VoiceConversation.synthesize`,
  `VoiceConversation.respond_speech`) — conversation orchestration.

Modelling conventions: file/JSON persistence is represented by an oracle
`sink : Nat → Bool` giving the outcome of the n-th save attempt, and a
write counter; the synthesis engine is an oracle `Behavior : Nat →
AttemptOutcome` giving, per attempt index, whether the worker thread hangs
past the deadline, raises, or returns a chunk list; audio samples are exact
rationals (floats are modelled exactly); Python dict-vs-str subscripting is
modelled at the value level by `PyVal` / `pySubscript`.
-/

namespace VoiceSkill

/-! ## Output toggle store (`voice_output_manager.py`) -/

/-- In-memory toggle state (`self.state`) together with a count of persisted
write attempts (`_save_state` invocations), used to observe persistence. -/
structure ToggleState where
  enabled : Bool
  writes : Nat
deriving Repr, DecidableEq

/-- Python `str.strip()` on a character list: drop whitespace from both
ends (structurally recursive, so concrete inputs evaluate in the kernel). -/
def stripChars (l : List Char) : List Char :=
  ((l.dropWhile Char.isWhitespace).reverse.dropWhile Char.isWhitespace).reverse

/-- Python `str.strip()`: remove leading and trailing whitespace. -/
def pyStrip (s : String) : String :=
  ⟨stripChars s.data⟩

namespace VoiceOutputManager

/-- `VoiceOutputManager._save_state`: stamps and writes the state; the
outcome of the n-th write attempt is given by the persistence oracle
`sink`.  Returns the success flag and the state with the attempt counted. -/
def save_state (sink : Nat → Bool) (st : ToggleState) : Bool × ToggleState :=
  (sink st.writes, { st with writes := st.writes + 1 })

/-- `VoiceOutputManager.is_enabled`. -/
def is_enabled (st : ToggleState) : Bool :=
  st.enabled

/-- `VoiceOutputManager.enable`: no-op returning `true` when already
enabled; otherwise set the flag in memory, then persist. -/
def enable (sink : Nat → Bool) (st : ToggleState) : Bool × ToggleState :=
  if !is_enabled st then
    save_state sink { st with enabled := true }
  else
    (true, st)

/-- `VoiceOutputManager.disable`: no-op returning `true` when already
disabled; otherwise clear the flag in memory, then persist. -/
def disable (sink : Nat → Bool) (st : ToggleState) : Bool × ToggleState :=
  if is_enabled st then
    save_state sink { st with enabled := false }
  else
    (true, st)

/-- `VoiceOutputManager.toggle`: flip unconditionally, persist, return the
new state (not the persistence outcome). -/
def toggle (sink : Nat → Bool) (st : ToggleState) : Bool × ToggleState :=
  let new_state := !is_enabled st
  let (_, st') := save_state sink { st with enabled := new_state }
  (new_state, st')

/-- Control action recognised by `parse_command` (which branch executed:
the enable branch, the disable branch, or the fall-through). -/
inductive Action where
  | enable
  | disable
  | passthrough
deriving Repr, DecidableEq

/-- Character class of the pure-enable regex `^[（[(\(]*$`: the characters
are `（`, `[`, `(` (the `\(` escape repeats `(`). -/
def isOpenBracket (c : Char) : Bool :=
  c = '（' || c = '[' || c = '('

/-- Character class of the pure-disable regex `^[）)\)]*$`: the characters
are `）`, `)` (the `\)` escape repeats `)`); note `]` is NOT in the class. -/
def isCloseBracket (c : Char) : Bool :=
  c = '）' || c = ')'

/-- `VoiceOutputManager.parse_command`: strips the text; if every character
of the stripped text lies in the open-bracket class (vacuously true for the
empty string, since the regexes use `*`) it calls `enable` and returns `""`;
else if every character lies in the close-bracket class it calls `disable`
and returns `""`; otherwise it returns the stripped text unchanged.  The
returned `Action` records which branch executed. -/
def parse_command (sink : Nat → Bool) (text : String) (st : ToggleState) :
    String × Action × ToggleState :=
  let original_text := pyStrip text
  if original_text.data.all isOpenBracket then
    let (_, st') := enable sink st
    ("", Action.enable, st')
  else if original_text.data.all isCloseBracket then
    let (_, st') := disable sink st
    ("", Action.disable, st')
  else
    (original_text, Action.passthrough, st)

end VoiceOutputManager

/-! ## Bounded synthesis invoker (`voice_tts.py`) -/

/-- Raw audio sample sequence (floats modelled exactly as rationals). -/
abbrev AudioData := List ℚ

/-- Observable behaviour of one worker-thread attempt of `_synthesize`:
the worker is still alive when `thread.join(timeout)` returns (`hang`), the
inference call raised (`raises msg`), or the inference call returned a
chunk list, where a chunk is `some samples` when it carries a `tts_speech`
entry with those samples and `none` otherwise. -/
inductive AttemptOutcome where
  | hang
  | raises (msg : String)
  | returns (chunks : List (Option AudioData))

/-- Engine oracle: outcome of the attempt with index `retry`. -/
def Behavior : Type := Nat → AttemptOutcome

/-- Result dict of `synthesize_speech_fixed`. -/
structure TTSResult where
  output_file : String
  duration : ℚ
  sample_rate : Nat
  success : Bool
  error : Option String
  timed_out : Bool
  retry_count : Nat
deriving Repr, DecidableEq

/-- Full observable outcome of one `synthesize_speech_fixed` call: the
result dict, the samples written to the output file by `sf.write` (if
any), and the number of attempts (worker threads launched). -/
structure SynthState where
  result : TTSResult
  written : Option AudioData
  attempts : Nat
deriving Repr, DecidableEq

/-- Known crash signature of the inference backend. -/
def tritonSignature : String :=
  "terminate called without an active exception"

/-- Substring test via `String.splitOn`: `pat` occurs in `s` iff splitting
on `pat` yields more than one part (for the nonempty patterns used here). -/
def containsSubstring (s pat : String) : Bool :=
  (s.splitOn pat).length != 1

/-- Error-message classification in the worker's handler: the known Triton
crash signature is replaced by a human-readable annotation. -/
def classifyError (msg : String) : String :=
  if containsSubstring msg tritonSignature then
    "Triton 優化內核崩潰（已設置環境變量禁用優化）"
  else
    msg

/-- Message of the `ValueError` raised when no chunk carries audio. -/
def noAudioMsg : String :=
  "未生成音頻數據（output.tts_speech 為空）"

/-- Timeout error message recorded by the main thread. -/
def timeoutError (timeout : ℚ) : String :=
  "Synthesis timeout after " ++ toString timeout ++ "s"

/-- Post-processing gain constant (`audio_gain = 6.0`). -/
def audio_gain : ℚ := 6

/-- `np.clip(x, -1.0, 1.0)` on one sample. -/
def clip (x : ℚ) : ℚ :=
  min 1 (max (-1) x)

/-- The fixed post-processing: multiply by the gain, then hard-clip. -/
def postProcess (a : AudioData) : AudioData :=
  (a.map (· * audio_gain)).map clip

/-- Audio extraction loop: the first chunk carrying a `tts_speech` entry. -/
def firstAudio : List (Option AudioData) → Option AudioData
  | [] => Option.none
  | Option.some a :: _ => Option.some a
  | Option.none :: rest => firstAudio rest

/-- Body of the worker closure `_synthesize`, given the attempt's outcome:
returns (worker finished within the deadline, updated result dict, updated
output-file contents).  On a hang nothing is updated; on an exception the
handler records the classified error and `success := false`; on empty
output the internal `ValueError` takes the same handler path; on success
the post-processed samples are written, and the dict gets the duration
(sample count / 24000), `success := true` and `timed_out := false`. -/
def runWorker (o : AttemptOutcome) (output_file : String) (r : TTSResult)
    (w : Option AudioData) : Bool × TTSResult × Option AudioData :=
  match o with
  | AttemptOutcome.hang => (false, r, w)
  | AttemptOutcome.raises msg =>
      (true,
        { r with error := Option.some (classifyError msg), success := false },
        w)
  | AttemptOutcome.returns chunks =>
      match firstAudio chunks with
      | Option.none =>
          (true,
            { r with error := Option.some (classifyError noAudioMsg),
                     success := false },
            w)
      | Option.some a =>
          let audio_data := postProcess a
          (true,
            { r with
                duration := (audio_data.length : ℚ) / 24000,
                success := true,
                output_file := output_file,
                timed_out := false },
            Option.some audio_data)

/-- The retry loop `for retry in range(max_retries)` of
`synthesize_speech_fixed`, with `remaining = max_retries - retry` as the
recursion measure.  Each iteration sets `retry_count := retry`, launches
the worker, and then follows the source control flow: a still-alive worker
records the timeout and either returns (last attempt) or retries; a
finished successful worker breaks; a finished worker with a falsy error
either breaks (last attempt) or retries; otherwise the loop falls through
to the next iteration. -/
def synthLoop (b : Behavior) (max_retries : Nat) (output_file : String)
    (timeout : ℚ) :
    Nat → Nat → TTSResult → Option AudioData → Nat → SynthState
  | _, 0, r, w, att => ⟨r, w, att⟩
  | retry, remaining + 1, r, w, att =>
      let r1 := { r with retry_count := retry }
      let step := runWorker (b retry) output_file r1 w
      let finished := step.1
      let r2 := step.2.1
      let w2 := step.2.2
      let att2 := att + 1
      if !finished then
        let r3 := { r2 with timed_out := true,
                            error := Option.some (timeoutError timeout) }
        if max_retries - 1 ≤ retry then
          ⟨r3, w2, att2⟩
        else
          synthLoop b max_retries output_file timeout (retry + 1) remaining
            r3 w2 att2
      else if r2.success then
        ⟨r2, w2, att2⟩
      else if (match r2.error with
               | Option.none => true
               | Option.some s => s = "") then
        if max_retries - 1 ≤ retry then
          ⟨r2, w2, att2⟩
        else
          synthLoop b max_retries output_file timeout (retry + 1) remaining
            r2 w2 att2
      else
        synthLoop b max_retries output_file timeout (retry + 1) remaining
          r2 w2 att2

/-- `synthesize_speech_fixed`: initial result dict, then the retry loop.
The reference-audio bootstrap and logging are I/O with no bearing on the
result and are not modelled. -/
def synthesize_speech_fixed (b : Behavior) (_text : String)
    (output_file : String) (max_retries : Nat) (timeout : ℚ) : SynthState :=
  let result : TTSResult :=
    { output_file := output_file
      duration := 0
      sample_rate := 24000
      success := false
      error := Option.none
      timed_out := false
      retry_count := 0 }
  synthLoop b max_retries output_file timeout 0 max_retries result
    Option.none 0

/-! ## Engine-handle cache (`_get_cosyvoice_instance` in `voice_tts.py`) -/

/-- The module-level globals `_cosyvoice_instance` and `_model_dir`, plus a
counter assigning a fresh identity to every `CosyVoice3(model_dir)`
construction (so distinct constructions are distinguishable handles). -/
structure CacheState where
  cosyvoice_instance : Option Nat
  model_dir : Option String
  next_handle : Nat
deriving Repr, DecidableEq

/-- `DEFAULT_MODEL_DIR` in `voice_tts.py`. -/
def DEFAULT_MODEL_DIR : String :=
  "/home/ubuntu/CosyVoice/pretrained_models/Fun-CosyVoice3-0.5B"

/-- Initial state of the globals: no instance, no directory. -/
def initCache : CacheState :=
  ⟨Option.none, Option.none, 0⟩

/-- `_get_cosyvoice_instance`: substitute the default directory for
`None`; under the lock, return the cached instance when one exists and the
cached `_model_dir` equals the requested one; otherwise construct a fresh
handle and overwrite both globals. -/
def get_cosyvoice_instance (md : Option String) (st : CacheState) :
    Nat × CacheState :=
  let model_dir := md.getD DEFAULT_MODEL_DIR
  match st.cosyvoice_instance with
  | Option.some inst =>
      if st.model_dir = Option.some model_dir then
        (inst, st)
      else
        (st.next_handle,
          ⟨Option.some st.next_handle, Option.some model_dir,
            st.next_handle + 1⟩)
  | Option.none =>
      (st.next_handle,
        ⟨Option.some st.next_handle, Option.some model_dir,
          st.next_handle + 1⟩)

/-- Run a sequence of handle requests, collecting the returned handles. -/
def runRequests : List (Option String) → CacheState → List Nat × CacheState
  | [], st => ([], st)
  | d :: ds, st =>
      let (h, st') := get_cosyvoice_instance d st
      let (hs, st'') := runRequests ds st'
      (h :: hs, st'')

/-! ## Conversation orchestrator (`voice_integration.py`) -/

/-- Return dict of `VoiceConversation.synthesize`.  The `engine` field
records the full invoker outcome when `synthesize_speech` was actually
called, and is `none` on the disabled short-circuit (so `engine = none`
expresses that the engine, its handle cache and its output files were
never touched). -/
structure ConvSynthResult where
  success : Bool
  output_file : Option String
  duration : ℚ
  error : Option String
  message : Option String
  engine : Option SynthState
deriving Repr, DecidableEq

/-- `VoiceConversation.synthesize`: when `force` is false and the toggle
is disabled, return the short-circuit dict with error
`voice_output_disabled` without calling `synthesize_speech`; otherwise
delegate to `synthesize_speech_fixed` (aliased as `synthesize_speech`). -/
def VoiceConversation.synthesize (voice_enabled : Bool) (b : Behavior)
    (text : String) (output_file : String) (force : Bool)
    (max_retries : Nat) (timeout : ℚ) : ConvSynthResult :=
  if !force && !voice_enabled then
    { success := false
      output_file := Option.none
      duration := 0
      error := Option.some "voice_output_disabled"
      message := Option.some "語音輸出已關閉"
      engine := Option.none }
  else
    let s := synthesize_speech_fixed b text output_file max_retries timeout
    { success := s.result.success
      output_file := Option.some s.result.output_file
      duration := s.result.duration
      error := s.result.error
      message := Option.none
      engine := Option.some s }

/-! ### Python value level for `respond_speech`

`VoiceOutputManager.parse_command` returns a plain `str`, while
`VoiceConversation.respond_speech` subscripts its return value with the
keys `text`, `action` and `voice_enabled`.  Subscripting a Python `str`
with a `str` key raises `TypeError`, so the subscripting step is embedded
at the dynamic-value level. -/

/-- Python exceptions that the embedded fragment can raise. -/
inductive PyErr where
  | typeError (msg : String)
  | keyError (key : String)
deriving Repr, DecidableEq

/-- Python values crossing the `parse_command` boundary. -/
inductive PyVal where
  | str (s : String)
  | boolean (b : Bool)
  | act (a : VoiceOutputManager.Action)
  | dict (fields : List (String × PyVal))

/-- Association-list lookup for dict fields. -/
def lookupField : List (String × PyVal) → String → Option PyVal
  | [], _ => Option.none
  | (k, v) :: rest, key => if k = key then Option.some v else lookupField rest key

/-- Python subscripting `v[key]` with a string key: on a `str` it raises
`TypeError: string indices must be integers`; on a dict it looks the key
up (raising `KeyError` when absent); other values are not subscriptable. -/
def pySubscript : PyVal → String → Except PyErr PyVal
  | PyVal.str _, _ =>
      Except.error (PyErr.typeError "string indices must be integers")
  | PyVal.dict fs, key =>
      match lookupField fs key with
      | Option.some v => Except.ok v
      | Option.none => Except.error (PyErr.keyError key)
  | _, _ => Except.error (PyErr.typeError "object is not subscriptable")

/-- `parse_command` as seen by its caller: the Python value it returns (a
plain string) together with the updated toggle state. -/
def parse_command_py (sink : Nat → Bool) (text : String) (st : ToggleState) :
    PyVal × ToggleState :=
  let (t, _, st') := VoiceOutputManager.parse_command sink text st
  (PyVal.str t, st')

/-- Extract a Lean string from a Python value. -/
def asStr : PyVal → Except PyErr String
  | PyVal.str s => Except.ok s
  | _ => Except.error (PyErr.typeError "expected str")

/-- Extract an action from a Python value. -/
def asAction : PyVal → Except PyErr VoiceOutputManager.Action
  | PyVal.act a => Except.ok a
  | _ => Except.error (PyErr.typeError "expected action")

/-- Extract a boolean from a Python value. -/
def asBool : PyVal → Except PyErr Bool
  | PyVal.boolean b => Except.ok b
  | _ => Except.error (PyErr.typeError "expected bool")

/-- Result dict assembled by `respond_speech`. -/
structure RespondResult where
  success : Bool
  output_file : Option String
  duration : ℚ
  action : VoiceOutputManager.Action
  message : Option String
  voice_enabled : Bool
  timed_out : Bool
  original_text : Option String
  text_truncated : Option Bool
deriving Repr, DecidableEq

/-- The body of `respond_speech` after the parsed fields have been
extracted: truncate over-long text to `max_safe_chars = int(50 / 1.5) =
33` characters plus a marker, call `VoiceConversation.synthesize`, and
assemble the result dict; a pure control command only sets a status
message. -/
def respondCore (processed_text : String)
    (action : VoiceOutputManager.Action) (voice_enabled : Bool)
    (enabled_now : Bool) (b : Behavior) (force : Bool) (timeout : ℚ)
    (output_file : String) (max_retries : Nat) : RespondResult :=
  let result : RespondResult :=
    { success := true
      output_file := Option.none
      duration := 0
      action := action
      message := Option.none
      voice_enabled := voice_enabled
      timed_out := false
      original_text := Option.none
      text_truncated := Option.none }
  if pyStrip processed_text ≠ "" then
    let max_safe_chars : Nat := 33
    let original_text := processed_text
    let text_truncated := max_safe_chars < processed_text.length
    let processed_text' :=
      if max_safe_chars < processed_text.length then
        (processed_text.take max_safe_chars) ++ "..."
      else
        processed_text
    let s := VoiceConversation.synthesize enabled_now b processed_text'
      output_file force max_retries timeout
    let timed_out :=
      match s.engine with
      | Option.some es => es.result.timed_out
      | Option.none => false
    { result with
        success := s.success
        output_file := s.output_file
        duration := s.duration
        timed_out := timed_out
        message := if timed_out then Option.some "synthesis_timeout"
                   else result.message
        original_text := Option.some original_text
        text_truncated := Option.some text_truncated }
  else
    match action with
    | VoiceOutputManager.Action.enable =>
        { result with message := Option.some "voice_output_enabled" }
    | VoiceOutputManager.Action.disable =>
        { result with message := Option.some "voice_output_disabled" }
    | VoiceOutputManager.Action.passthrough => result

/-- `VoiceConversation.respond_speech`: run `parse_command` on the text,
subscript its return value with `text` / `action` / `voice_enabled`, and
continue with the assembled fields.  The subscripting is fallible Python
evaluation, so the function returns `Except PyErr`. -/
def VoiceConversation.respond_speech (sink : Nat → Bool) (b : Behavior)
    (text : String) (st : ToggleState) (force : Bool) (timeout : ℚ)
    (output_file : String) (max_retries : Nat) :
    Except PyErr (RespondResult × ToggleState) := do
  let pr := parse_command_py sink text st
  let parse_result := pr.1
  let st' := pr.2
  let processedV ← pySubscript parse_result "text"
  let actionV ← pySubscript parse_result "action"
  let enabledV ← pySubscript parse_result "voice_enabled"
  let processed_text ← asStr processedV
  let action ← asAction actionV
  let voice_enabled ← asBool enabledV
  Except.ok
    (respondCore processed_text action voice_enabled st'.enabled b force
      timeout output_file max_retries, st')

/-! ## Helper lemmas -/

/-- `enable` always leaves the in-memory flag set, whether or not the
persisted write succeeds. -/
theorem enable_sets_enabled (sink : Nat → Bool) (st : ToggleState) :
    ((VoiceOutputManager.enable sink st).2).enabled = true := by
  unfold VoiceOutputManager.enable VoiceOutputManager.is_enabled
    VoiceOutputManager.save_state
  cases hst : st.enabled <;> simp [hst]

/-- `disable` always leaves the in-memory flag cleared, whether or not the
persisted write succeeds. -/
theorem disable_clears_enabled (sink : Nat → Bool) (st : ToggleState) :
    ((VoiceOutputManager.disable sink st).2).enabled = false := by
  unfold VoiceOutputManager.disable VoiceOutputManager.is_enabled
    VoiceOutputManager.save_state
  cases hst : st.enabled <;> simp [hst]

/-- `enable` on an already-enabled state is a pure no-op returning `true`. -/
theorem enable_noop_of_enabled (sink : Nat → Bool) (st : ToggleState)
    (h : st.enabled = true) :
    VoiceOutputManager.enable sink st = (true, st) := by
  unfold VoiceOutputManager.enable VoiceOutputManager.is_enabled
  rw [h]
  simp

/-- Success postcondition of the retry loop: whenever the returned result
has `success = true`, the timed-out flag is clear and the written samples
and reported duration come from the post-processed audio of some engine
attempt. -/
def GoodSynth (b : Behavior) (s : SynthState) : Prop :=
  s.result.success = true →
    s.result.timed_out = false ∧
    ∃ chunks a, (∃ k, b k = AttemptOutcome.returns chunks) ∧
      firstAudio chunks = Option.some a ∧
      s.written = Option.some (postProcess a) ∧
      s.result.duration = ((postProcess a).length : ℚ) / 24000

/-- The retry loop establishes `GoodSynth` from any entry state whose
success flag is clear (case analysis over the attempt outcome and the
loop's exit conditions). -/
theorem synthLoop_good (b : Behavior) (m : Nat) (f : String) (t : ℚ) :
    ∀ remaining retry r w att, r.success = false →
      GoodSynth b (synthLoop b m f t retry remaining r w att) := by
  intro remaining
  induction remaining with
  | zero =>
      intro retry r w att hr hs
      exact absurd hs (by simp [synthLoop, hr])
  | succ rem ih =>
      intro retry r w att hr
      cases hb : b retry with
      | hang =>
          by_cases hlast : m - 1 ≤ retry
          · have he : synthLoop b m f t retry (rem + 1) r w att =
                ⟨{ r with retry_count := retry, timed_out := true, error := Option.some (timeoutError t) }, w, att + 1⟩ := by
              simp [synthLoop, runWorker, hb, hlast]
            rw [he]
            intro hs
            exact absurd hs (by simp [hr])
          · have he : synthLoop b m f t retry (rem + 1) r w att =
                synthLoop b m f t (retry + 1) rem { r with retry_count := retry, timed_out := true, error := Option.some (timeoutError t) } w (att + 1) := by
              simp [synthLoop, runWorker, hb, hlast]
            rw [he]
            exact ih _ _ _ _ (by simp [hr])
      | raises msg =>
          by_cases hmsg : classifyError msg = ""
          · by_cases hlast : m - 1 ≤ retry
            · have he : synthLoop b m f t retry (rem + 1) r w att =
                  ⟨{ r with retry_count := retry, error := Option.some (classifyError msg), success := false }, w, att + 1⟩ := by
                simp [synthLoop, runWorker, hb, hmsg, hlast]
              rw [he]
              intro hs
              exact absurd hs (by simp)
            · have he : synthLoop b m f t retry (rem + 1) r w att =
                  synthLoop b m f t (retry + 1) rem { r with retry_count := retry, error := Option.some (classifyError msg), success := false } w (att + 1) := by
                simp [synthLoop, runWorker, hb, hmsg, hlast]
              rw [he]
              exact ih _ _ _ _ (by simp)
          · have he : synthLoop b m f t retry (rem + 1) r w att =
                synthLoop b m f t (retry + 1) rem { r with retry_count := retry, error := Option.some (classifyError msg), success := false } w (att + 1) := by
              simp [synthLoop, runWorker, hb, hmsg]
            rw [he]
            exact ih _ _ _ _ (by simp)
      | returns chunks =>
          cases hfa : firstAudio chunks with
          | none =>
              by_cases hmsg : classifyError noAudioMsg = ""
              · by_cases hlast : m - 1 ≤ retry
                · have he : synthLoop b m f t retry (rem + 1) r w att =
                      ⟨{ r with retry_count := retry, error := Option.some (classifyError noAudioMsg), success := false }, w, att + 1⟩ := by
                    simp [synthLoop, runWorker, hb, hfa, hmsg, hlast]
                  rw [he]
                  intro hs
                  exact absurd hs (by simp)
                · have he : synthLoop b m f t retry (rem + 1) r w att =
                      synthLoop b m f t (retry + 1) rem { r with retry_count := retry, error := Option.some (classifyError noAudioMsg), success := false } w (att + 1) := by
                    simp [synthLoop, runWorker, hb, hfa, hmsg, hlast]
                  rw [he]
                  exact ih _ _ _ _ (by simp)
              · have he : synthLoop b m f t retry (rem + 1) r w att =
                    synthLoop b m f t (retry + 1) rem { r with retry_count := retry, error := Option.some (classifyError noAudioMsg), success := false } w (att + 1) := by
                  simp [synthLoop, runWorker, hb, hfa, hmsg]
                rw [he]
                exact ih _ _ _ _ (by simp)
          | some a =>
              have he : synthLoop b m f t retry (rem + 1) r w att =
                  ⟨{ r with retry_count := retry, duration := ((postProcess a).length : ℚ) / 24000, success := true, output_file := f, timed_out := false }, Option.some (postProcess a), att + 1⟩ := by
                simp [synthLoop, runWorker, hb, hfa]
              rw [he]
              intro _
              exact ⟨rfl, chunks, a, ⟨retry, hb⟩, hfa, rfl, rfl⟩

/-- The retry loop never sets a `retry_count` beyond the loop bound:
entering with `retry + remaining ≤ m` and a result whose count already
satisfies the bound, the returned count satisfies `retry_count + 1 ≤ m`. -/
theorem synthLoop_retry_le (b : Behavior) (m : Nat) (f : String) (t : ℚ) :
    ∀ remaining retry r w att, retry + remaining ≤ m → r.retry_count + 1 ≤ m →
      ((synthLoop b m f t retry remaining r w att).result).retry_count + 1 ≤ m := by
  intro remaining
  induction remaining with
  | zero =>
      intro retry r w att _ hrc
      simpa [synthLoop] using hrc
  | succ rem ih =>
      intro retry r w att hsum hrc
      have hret : retry + 1 ≤ m := by omega
      cases hb : b retry with
      | hang =>
          by_cases hlast : m - 1 ≤ retry
          · have he : synthLoop b m f t retry (rem + 1) r w att =
                ⟨{ r with retry_count := retry, timed_out := true, error := Option.some (timeoutError t) }, w, att + 1⟩ := by
              simp [synthLoop, runWorker, hb, hlast]
            rw [he]
            simpa using hret
          · have he : synthLoop b m f t retry (rem + 1) r w att =
                synthLoop b m f t (retry + 1) rem { r with retry_count := retry, timed_out := true, error := Option.some (timeoutError t) } w (att + 1) := by
              simp [synthLoop, runWorker, hb, hlast]
            rw [he]
            exact ih _ _ _ _ (by omega) (by simpa using hret)
      | raises msg =>
          by_cases hmsg : classifyError msg = ""
          · by_cases hlast : m - 1 ≤ retry
            · have he : synthLoop b m f t retry (rem + 1) r w att =
                  ⟨{ r with retry_count := retry, error := Option.some (classifyError msg), success := false }, w, att + 1⟩ := by
                simp [synthLoop, runWorker, hb, hmsg, hlast]
              rw [he]
              simpa using hret
            · have he : synthLoop b m f t retry (rem + 1) r w att =
                  synthLoop b m f t (retry + 1) rem { r with retry_count := retry, error := Option.some (classifyError msg), success := false } w (att + 1) := by
                simp [synthLoop, runWorker, hb, hmsg, hlast]
              rw [he]
              exact ih _ _ _ _ (by omega) (by simpa using hret)
          · have he : synthLoop b m f t retry (rem + 1) r w att =
                synthLoop b m f t (retry + 1) rem { r with retry_count := retry, error := Option.some (classifyError msg), success := false } w (att + 1) := by
              simp [synthLoop, runWorker, hb, hmsg]
            rw [he]
            exact ih _ _ _ _ (by omega) (by simpa using hret)
      | returns chunks =>
          cases hfa : firstAudio chunks with
          | none =>
              by_cases hmsg : classifyError noAudioMsg = ""
              · by_cases hlast : m - 1 ≤ retry
                · have he : synthLoop b m f t retry (rem + 1) r w att =
                      ⟨{ r with retry_count := retry, error := Option.some (classifyError noAudioMsg), success := false }, w, att + 1⟩ := by
                    simp [synthLoop, runWorker, hb, hfa, hmsg, hlast]
                  rw [he]
                  simpa using hret
                · have he : synthLoop b m f t retry (rem + 1) r w att =
                      synthLoop b m f t (retry + 1) rem { r with retry_count := retry, error := Option.some (classifyError noAudioMsg), success := false } w (att + 1) := by
                    simp [synthLoop, runWorker, hb, hfa, hmsg, hlast]
                  rw [he]
                  exact ih _ _ _ _ (by omega) (by simpa using hret)
              · have he : synthLoop b m f t retry (rem + 1) r w att =
                    synthLoop b m f t (retry + 1) rem { r with retry_count := retry, error := Option.some (classifyError noAudioMsg), success := false } w (att + 1) := by
                  simp [synthLoop, runWorker, hb, hfa, hmsg]
                rw [he]
                exact ih _ _ _ _ (by omega) (by simpa using hret)
          | some a =>
              have he : synthLoop b m f t retry (rem + 1) r w att =
                  ⟨{ r with retry_count := retry, duration := ((postProcess a).length : ℚ) / 24000, success := true, output_file := f, timed_out := false }, Option.some (postProcess a), att + 1⟩ := by
                simp [synthLoop, runWorker, hb, hfa]
              rw [he]
              simpa using hret

/-- Against an engine whose worker hangs on every attempt, the retry loop
runs through its whole remaining budget: every attempt records the
timeout, the final allowed attempt returns immediately (exactly
`remaining` further worker launches, none after the final one), the
success flag is left untouched from the entry state, and the final
`retry_count` is the last attempt index `m - 1`. -/
theorem synthLoop_hang_exhausts (b : Behavior) (m : Nat) (f : String) (t : ℚ)
    (hb : ∀ k, b k = AttemptOutcome.hang) :
    ∀ remaining retry r w att, retry + remaining = m → 1 ≤ remaining →
      (synthLoop b m f t retry remaining r w att).attempts = att + remaining ∧
      (synthLoop b m f t retry remaining r w att).result.timed_out = true ∧
      (synthLoop b m f t retry remaining r w att).result.success = r.success ∧
      (synthLoop b m f t retry remaining r w att).result.retry_count = m - 1 := by
  intro remaining
  induction remaining with
  | zero =>
      intro retry r w att _ h1
      exact absurd h1 (by omega)
  | succ rem ih =>
      intro retry r w att hsum _
      by_cases hlast : m - 1 ≤ retry
      · have hrem : rem = 0 := by omega
        subst hrem
        have he : synthLoop b m f t retry (0 + 1) r w att =
            ⟨{ r with retry_count := retry, timed_out := true, error := Option.some (timeoutError t) }, w, att + 1⟩ := by
          simp [synthLoop, runWorker, hb retry, hlast]
        rw [he]
        refine ⟨rfl, rfl, rfl, ?_⟩
        show retry = m - 1
        omega
      · have he : synthLoop b m f t retry (rem + 1) r w att =
            synthLoop b m f t (retry + 1) rem { r with retry_count := retry, timed_out := true, error := Option.some (timeoutError t) } w (att + 1) := by
          simp [synthLoop, runWorker, hb retry, hlast]
        rw [he]
        obtain ⟨h1, h2, h3, h4⟩ := ih (retry + 1) _ w (att + 1) (by omega) (by omega)
        exact ⟨by rw [h1]; omega, h2, by rw [h3], h4⟩

/-! ## Claims -/

/-- C1: the claim states that `respond_speech` returns a structured result
with text content on every branch and never terminates with an uncaught
fault.  On the source as written this is false: `parse_command` returns a
plain Python string, and `respond_speech` immediately subscripts it with
the string key `text`, which raises `TypeError: string indices must be
integers` — so `respond_speech` raises an uncaught fault on every input
text, every toggle state, and every engine behaviour. -/
theorem respond_speech_always_raises_type_error (sink : Nat → Bool)
    (b : Behavior) (text : String) (st : ToggleState) (force : Bool)
    (timeout : ℚ) (output_file : String) (max_retries : Nat) :
    VoiceConversation.respond_speech sink b text st force timeout
      output_file max_retries =
    Except.error (PyErr.typeError "string indices must be integers") := by
  rfl

/-- C2 (counterexample): the claim says an input consisting only of the
closing-bracket characters `)`, `）`, `]` triggers the disable branch.
The character class of the pure-disable regex `^[）)\)]*$` does not
contain `]`: on input `"]"` the parser takes the fall-through branch, the
text comes back unchanged (not empty), the action is not `disable`, and
an enabled toggle stays enabled. -/
theorem parse_command_bracket_counterexample :
    (VoiceOutputManager.parse_command (fun _ => true) "]" ⟨true, 0⟩).1 ≠ "" ∧
    (VoiceOutputManager.parse_command (fun _ => true) "]" ⟨true, 0⟩).2.1 ≠
      VoiceOutputManager.Action.disable ∧
    ((VoiceOutputManager.parse_command (fun _ => true) "]"
      ⟨true, 0⟩).2.2).enabled = true := by
  decide

/-- C2 (amended): for every input whose trimmed text is nonempty and
consists only of the closing-bracket characters `)` and `）` (the actual
regex class — `]` excluded), `parse_command` calls `disable()`, leaves
the toggle disabled, and returns empty text with the disable action. -/
theorem parse_command_close_brackets_disable (sink : Nat → Bool)
    (text : String) (st : ToggleState) (c : Char) (cs : List Char)
    (h1 : (pyStrip text).data = c :: cs)
    (h2 : (c :: cs).all VoiceOutputManager.isCloseBracket = true) :
    VoiceOutputManager.parse_command sink text st =
      ("", VoiceOutputManager.Action.disable,
        (VoiceOutputManager.disable sink st).2) ∧
    ((VoiceOutputManager.disable sink st).2).enabled = false := by
  have hc : VoiceOutputManager.isCloseBracket c = true := by
    simp only [List.all_cons, Bool.and_eq_true] at h2
    exact h2.1
  have hopen : VoiceOutputManager.isOpenBracket c = false := by
    unfold VoiceOutputManager.isCloseBracket at hc
    simp only [Bool.or_eq_true, decide_eq_true_eq] at hc
    rcases hc with rfl | rfl <;> decide
  have hopenAll : (c :: cs).all VoiceOutputManager.isOpenBracket = false := by
    simp [List.all_cons, hopen]
  constructor
  · simp only [VoiceOutputManager.parse_command, h1, hopenAll, h2,
      Bool.false_eq_true, if_false, if_true]
  · exact disable_clears_enabled sink st

/-- C2 (witness for the amended theorem): the concrete input `"）)"`
(a full-width and a half-width closing paren) with the toggle enabled
takes the disable branch, disables the toggle and performs one persisted
write. -/
theorem parse_command_close_brackets_disable_witness :
    (pyStrip "）)").data = '）' :: [')'] ∧
    ('）' :: [')']).all VoiceOutputManager.isCloseBracket = true ∧
    (VoiceOutputManager.parse_command (fun _ => true) "）)" ⟨true, 0⟩ =
      ("", VoiceOutputManager.Action.disable,
        (VoiceOutputManager.disable (fun _ => true) ⟨true, 0⟩).2) ∧
     ((VoiceOutputManager.disable (fun _ => true) ⟨true, 0⟩).2).enabled =
       false) := by
  refine ⟨by decide, by decide, ?_⟩
  exact parse_command_close_brackets_disable (fun _ => true) "）)" ⟨true, 0⟩
    '）' [')'] (by decide) (by decide)

/-- C10: every input that trims to the empty string matches the
pure-enable regex `^[（[(\(]*$` vacuously (the regex uses `*`), so
`parse_command` calls `enable()`, the toggle ends up enabled, and the
returned text is empty with the enable action — an empty transcription
silently turns voice output on. -/
theorem parse_command_empty_enables (sink : Nat → Bool) (text : String)
    (st : ToggleState) (h : pyStrip text = "") :
    VoiceOutputManager.parse_command sink text st =
      ("", VoiceOutputManager.Action.enable,
        (VoiceOutputManager.enable sink st).2) ∧
    ((VoiceOutputManager.enable sink st).2).enabled = true := by
  constructor
  · simp only [VoiceOutputManager.parse_command, h]
    rfl
  · exact enable_sets_enabled sink st

/-- C10 (witness): a whitespace-only input with the toggle disabled takes
the enable branch and enables the toggle. -/
theorem parse_command_empty_enables_witness :
    pyStrip "   " = "" ∧
    (VoiceOutputManager.parse_command (fun _ => true) "   " ⟨false, 0⟩ =
      ("", VoiceOutputManager.Action.enable,
        (VoiceOutputManager.enable (fun _ => true) ⟨false, 0⟩).2) ∧
     ((VoiceOutputManager.enable (fun _ => true) ⟨false, 0⟩).2).enabled =
       true) := by
  refine ⟨by decide, ?_⟩
  exact parse_command_empty_enables (fun _ => true) "   " ⟨false, 0⟩
    (by decide)

/-- C8: enabling twice performs at most one persisted write.  When the
state is already enabled, `enable` is a no-op returning `true` without
writing; symmetrically `disable` on an already-disabled state; and from
any state, the second of two consecutive `enable` calls is a no-op
returning `true` with the write count having grown by at most one. -/
theorem enable_twice_at_most_one_write (sink : Nat → Bool) (n : Nat)
    (st : ToggleState) :
    VoiceOutputManager.enable sink ⟨true, n⟩ = (true, ⟨true, n⟩) ∧
    VoiceOutputManager.disable sink ⟨false, n⟩ = (true, ⟨false, n⟩) ∧
    VoiceOutputManager.enable sink (VoiceOutputManager.enable sink st).2 =
      (true, (VoiceOutputManager.enable sink st).2) ∧
    ((VoiceOutputManager.enable sink st).2).writes ≤ st.writes + 1 := by
  refine ⟨rfl, rfl, ?_, ?_⟩
  · exact enable_noop_of_enabled sink _ (enable_sets_enabled sink st)
  · unfold VoiceOutputManager.enable VoiceOutputManager.is_enabled
      VoiceOutputManager.save_state
    cases hst : st.enabled <;> simp [hst]

/-- C6 (counterexample): the claim says a handle request for a model
directory whose handle was already constructed returns that existing
handle even when requests for other directories occurred in between.  The
cache is a single slot keyed by the most recent directory: for the request
sequence A, B, A the three constructions 0, 1, 2 are returned — the third
request builds a fresh handle (2) instead of returning the first (0), and
two distinct live handles for directory A have been constructed. -/
theorem cache_interleaving_counterexample :
    (runRequests [Option.some "A", Option.some "B", Option.some "A"]
      initCache).1 = [0, 1, 2] ∧
    (runRequests [Option.some "A", Option.some "B", Option.some "A"]
      initCache).1.get? 2 ≠
    (runRequests [Option.some "A", Option.some "B", Option.some "A"]
      initCache).1.get? 0 := by
  decide

/-- C6 (amended): the cache holds at most one handle, keyed by the most
recently constructed model directory; a request for the directory
currently cached returns the existing handle without constructing a new
one and leaves the cache state unchanged. -/
theorem cache_hit_returns_existing (st : CacheState) (md : String)
    (inst : Nat) (h1 : st.cosyvoice_instance = Option.some inst)
    (h2 : st.model_dir = Option.some md) :
    get_cosyvoice_instance (Option.some md) st = (inst, st) := by
  unfold get_cosyvoice_instance
  rw [h1]
  simp [Option.getD, h2]

/-- C6 (witness): a cache holding handle 5 for directory A returns handle
5 unchanged on a request for A. -/
theorem cache_hit_returns_existing_witness :
    (⟨Option.some 5, Option.some "A", 6⟩ : CacheState).cosyvoice_instance =
      Option.some 5 ∧
    (⟨Option.some 5, Option.some "A", 6⟩ : CacheState).model_dir =
      Option.some "A" ∧
    get_cosyvoice_instance (Option.some "A")
      ⟨Option.some 5, Option.some "A", 6⟩ =
      (5, ⟨Option.some 5, Option.some "A", 6⟩) := by
  refine ⟨rfl, rfl, ?_⟩
  exact cache_hit_returns_existing ⟨Option.some 5, Option.some "A", 6⟩
    "A" 5 rfl rfl

/-- C7: with `force = false` and the output toggle disabled,
`VoiceConversation.synthesize` returns the short-circuit failure dict
whose error classification is the distinct value `voice_output_disabled`,
with `engine = none` recording that `synthesize_speech` — and hence the
engine handle cache and any output-file write — was never invoked. -/
theorem synthesize_disabled_short_circuit (b : Behavior) (text : String)
    (output_file : String) (max_retries : Nat) (timeout : ℚ) :
    VoiceConversation.synthesize false b text output_file false
      max_retries timeout =
    { success := false
      output_file := Option.none
      duration := 0
      error := Option.some "voice_output_disabled"
      message := Option.some "語音輸出已關閉"
      engine := Option.none } := by
  rfl

/-- C3: against an engine whose inference call raises on every attempt
(with any message), `synthesize_speech_fixed` with `max_retries = 3`
launches exactly 3 worker attempts and returns `success = false` with
`retry_count = 2`. -/
theorem synthesize_retries_exactly_three (msg : String)
    (text output_file : String) (t : ℚ) :
    (synthesize_speech_fixed (fun _ => AttemptOutcome.raises msg) text
      output_file 3 t).attempts = 3 ∧
    (synthesize_speech_fixed (fun _ => AttemptOutcome.raises msg) text
      output_file 3 t).result.success = false ∧
    (synthesize_speech_fixed (fun _ => AttemptOutcome.raises msg) text
      output_file 3 t).result.retry_count = 2 := by
  by_cases hmsg : classifyError msg = "" <;>
    simp [synthesize_speech_fixed, synthLoop, runWorker, hmsg]

/-- C4: against an engine whose inference call never finishes within the
deadline (the worker is still alive after every `thread.join(timeout)` —
the per-attempt wall-clock bound is the semantics of that join, modelled
by the `hang` outcome), `synthesize_speech_fixed` with any retry budget
`n ≥ 1` launches exactly `n` worker attempts: when the final allowed
attempt (index `n - 1`) times out the function returns immediately with
`timed_out = true` and `success = false`, making no further attempts.  In
particular with retry budget 1 a hanging engine yields `timed_out = true`
and `success = false` after a single attempt. -/
theorem synthesize_final_timeout_returns_immediately
    (text output_file : String) (n : Nat) (t : ℚ) (hn : 1 ≤ n) :
    (synthesize_speech_fixed (fun _ => AttemptOutcome.hang) text
      output_file n t).attempts = n ∧
    (synthesize_speech_fixed (fun _ => AttemptOutcome.hang) text
      output_file n t).result.timed_out = true ∧
    (synthesize_speech_fixed (fun _ => AttemptOutcome.hang) text
      output_file n t).result.success = false ∧
    (synthesize_speech_fixed (fun _ => AttemptOutcome.hang) text
      output_file n t).result.retry_count = n - 1 := by
  have hunfold : synthesize_speech_fixed (fun _ => AttemptOutcome.hang)
      text output_file n t =
      synthLoop (fun _ => AttemptOutcome.hang) n output_file t 0 n { output_file := output_file, duration := 0, sample_rate := 24000, success := false, error := Option.none, timed_out := false, retry_count := 0 } Option.none 0 := rfl
  rw [hunfold]
  obtain ⟨h1, h2, h3, h4⟩ := synthLoop_hang_exhausts
    (fun _ => AttemptOutcome.hang) n output_file t (fun _ => rfl) n 0
    { output_file := output_file, duration := 0, sample_rate := 24000, success := false, error := Option.none, timed_out := false, retry_count := 0 }
    Option.none 0 (by omega) hn
  exact ⟨by rw [h1]; omega, h2, h3, h4⟩

/-- C4 (witness): the claim's particular instance — the always-hanging
engine with retry budget 1 makes a single attempt. -/
theorem synthesize_final_timeout_returns_immediately_witness :
    (1 : Nat) ≤ 1 ∧
    ((synthesize_speech_fixed (fun _ => AttemptOutcome.hang) "你好"
        "out.wav" 1 50).attempts = 1 ∧
     (synthesize_speech_fixed (fun _ => AttemptOutcome.hang) "你好"
        "out.wav" 1 50).result.timed_out = true ∧
     (synthesize_speech_fixed (fun _ => AttemptOutcome.hang) "你好"
        "out.wav" 1 50).result.success = false ∧
     (synthesize_speech_fixed (fun _ => AttemptOutcome.hang) "你好"
        "out.wav" 1 50).result.retry_count = 1 - 1) :=
  ⟨by decide, synthesize_final_timeout_returns_immediately "你好"
    "out.wav" 1 50 (by decide)⟩

/-- C5 (counterexample): the claim says the returned `retry_count` never
exceeds `max_retries - 1` for every request, and the spec allows any
non-negative retry budget.  With `max_retries = 0` the loop body never
runs and the initial dict is returned with `retry_count = 0`, which
exceeds `max_retries - 1 = -1`. -/
theorem retry_count_exceeds_budget_counterexample :
    (synthesize_speech_fixed (fun _ => AttemptOutcome.hang) "t" "o" 0
      50).result.retry_count = 0 ∧
    ¬(((synthesize_speech_fixed (fun _ => AttemptOutcome.hang) "t" "o" 0
      50).result.retry_count : ℤ) ≤ (0 : ℤ) - 1) := by
  constructor
  · rfl
  · decide

/-- C5 (amended): for every engine behaviour and every retry budget of at
least 1, `synthesize_speech_fixed` (a total function, so it returns
exactly one result) never returns `success = true` together with
`timed_out = true`, and the returned `retry_count` is at most
`max_retries - 1`.  (With `max_retries = 0` the loop makes no attempts
and returns the initial `retry_count = 0`.) -/
theorem synthesize_result_invariants (b : Behavior)
    (text output_file : String) (n : Nat) (t : ℚ) (hn : 1 ≤ n) :
    ¬((synthesize_speech_fixed b text output_file n t).result.success =
        true ∧
      (synthesize_speech_fixed b text output_file n t).result.timed_out =
        true) ∧
    (((synthesize_speech_fixed b text output_file n t).result.retry_count :
        ℤ) ≤ (n : ℤ) - 1) := by
  have hunfold : synthesize_speech_fixed b text output_file n t =
      synthLoop b n output_file t 0 n { output_file := output_file, duration := 0, sample_rate := 24000, success := false, error := Option.none, timed_out := false, retry_count := 0 } Option.none 0 := rfl
  constructor
  · rintro ⟨hs, ht⟩
    rw [hunfold] at hs ht
    have h1 := (synthLoop_good b n output_file t n 0 _ Option.none 0 rfl
      hs).1
    rw [h1] at ht
    cases ht
  · rw [hunfold]
    have h := synthLoop_retry_le b n output_file t n 0
      { output_file := output_file, duration := 0, sample_rate := 24000, success := false, error := Option.none, timed_out := false, retry_count := 0 }
      Option.none 0 (by omega) (by simpa using hn)
    omega

/-- C5 (witness for the amended theorem): the hanging engine with retry
budget 1. -/
theorem synthesize_result_invariants_witness :
    (1 : Nat) ≤ 1 ∧
    (¬((synthesize_speech_fixed (fun _ => AttemptOutcome.hang) "t" "o" 1
          50).result.success = true ∧
       (synthesize_speech_fixed (fun _ => AttemptOutcome.hang) "t" "o" 1
          50).result.timed_out = true) ∧
     (((synthesize_speech_fixed (fun _ => AttemptOutcome.hang) "t" "o" 1
          50).result.retry_count : ℤ) ≤ (1 : ℤ) - 1)) :=
  ⟨by decide, synthesize_result_invariants (fun _ => AttemptOutcome.hang)
    "t" "o" 1 50 (by decide)⟩

/-- C9: every successful `synthesize_speech_fixed` call persisted the
engine output of some attempt after applying the fixed gain and then hard
clipping to `[-1, 1]` (`postProcess`), and the reported duration equals
the persisted sample count divided by the fixed 24000 Hz sample rate
(exact equality in the rational model of float arithmetic). -/
theorem duration_matches_sample_count (b : Behavior)
    (text output_file : String) (n : Nat) (t : ℚ)
    (hs : (synthesize_speech_fixed b text output_file n t).result.success =
      true) :
    ∃ chunks a, (∃ k, b k = AttemptOutcome.returns chunks) ∧
      firstAudio chunks = Option.some a ∧
      (synthesize_speech_fixed b text output_file n t).written =
        Option.some (postProcess a) ∧
      (synthesize_speech_fixed b text output_file n t).result.duration =
        ((postProcess a).length : ℚ) / 24000 := by
  exact synthLoop_good b n output_file t n 0
    { output_file := output_file, duration := 0, sample_rate := 24000, success := false, error := Option.none, timed_out := false, retry_count := 0 }
    Option.none 0 rfl hs |>.2

/-- C9 (witness): an engine that returns one audio-bearing chunk; the
call succeeds and the duration/persistence relation holds. -/
theorem duration_matches_sample_count_witness :
    (synthesize_speech_fixed
      (fun _ => AttemptOutcome.returns [Option.some [1, -1/2]]) "t" "o" 1
      50).result.success = true ∧
    (∃ chunks a,
      (∃ k, (fun _ => AttemptOutcome.returns [Option.some [1, -1/2]] :
        Behavior) k = AttemptOutcome.returns chunks) ∧
      firstAudio chunks = Option.some a ∧
      (synthesize_speech_fixed
        (fun _ => AttemptOutcome.returns [Option.some [1, -1/2]]) "t" "o"
        1 50).written = Option.some (postProcess a) ∧
      (synthesize_speech_fixed
        (fun _ => AttemptOutcome.returns [Option.some [1, -1/2]]) "t" "o"
        1 50).result.duration = ((postProcess a).length : ℚ) / 24000) :=
  ⟨by decide, duration_matches_sample_count
    (fun _ => AttemptOutcome.returns [Option.some [1, -1/2]]) "t" "o" 1 50
    (by decide)⟩

end VoiceSkill
